import Mathlib

/-!
Shallow embedding of the n_monitor repository's host monitors
(src/n_monitor/Monitors/host.py) and file loggers
(src/n_monitor/Loggers/file.py), together with theorems settling the
frozen claims about them.

Conventions used throughout:
- Python `int` is modelled as `Int` (arbitrary precision, as in Python);
  counts that the source keeps non-negative are modelled as `Nat` where the
  source guarantees it.
- Python `float` values are modelled as `Rat`.  The source divides and
  formats numbers whose binary floating-point rounding is exact at every
  input appearing in a theorem below; the rational model agrees with the
  source there.
- A Python function that may raise is modelled as returning
  `Except String _` (`.error` = an exception escapes); a caught exception
  is a normal return.
- A probe of the outside world (a syscall, psutil, a subprocess) is a
  parameter of the embedded function describing the probe's outcome, so
  theorems quantify over every possible behaviour of the probe.
-/

/-! ## Python primitive helpers -/

/-- Value of a list of decimal digit characters, most significant first. -/
def digitsToNat (cs : List Char) : Nat :=
  cs.foldl (fun a c => a * 10 + (c.toNat - 48)) 0

/-- Python `int(s)` on a string: an optional sign followed by one or more
decimal digits; anything else raises `ValueError` (modelled as `none`).
(Python additionally strips surrounding whitespace and allows `_` digit
separators; no caller in this repository depends on those.) -/
def pyInt (s : String) : Option Int :=
  match s.data with
  | '-' :: rest =>
      if !rest.isEmpty && rest.all Char.isDigit then some (-(digitsToNat rest : Int)) else none
  | '+' :: rest =>
      if !rest.isEmpty && rest.all Char.isDigit then some (digitsToNat rest : Int) else none
  | cs =>
      if !cs.isEmpty && cs.all Char.isDigit then some (digitsToNat cs : Int) else none

/-- Python `s.endswith(suffix)`. -/
def pyEndsWith (s suffix : String) : Bool :=
  suffix.data.isSuffixOf s.data

/-- Python `s[:-1]`. -/
def pyDropLast (s : String) : String :=
  String.mk s.data.dropLast

/-- Round `num / den` (with `den > 0`) to the nearest integer, ties to even:
the rounding used by C `printf`-style `%0.Nf` formatting of an exactly
representable value. -/
def roundHalfEven (num den : Int) : Int :=
  let q := num.fdiv den
  let r := num.fmod den
  if den < 2 * r then q + 1
  else if 2 * r < den then q
  else if q % 2 = 0 then q else q + 1

/-- Python `"%0.<d>f" % (num / den)` (with `den > 0`) for a quotient whose
binary double is exact: fixed-point rendering with `d` fractional digits,
rounding half to even. -/
def pyFormatFixedFrac (d : Nat) (num den : Int) : String :=
  let n := roundHalfEven (num * (10 : Int) ^ d) den
  let m := n.natAbs
  let ip := m / 10 ^ d
  let fp := m % 10 ^ d
  let fs := toString fp
  let pad := String.mk (List.replicate (d - fs.length) ('0'))
  (if n < 0 then "-" else "") ++ toString ip ++ "." ++ pad ++ fs

/-- Python `"%0.<d>f" % x` for a value whose binary double is exactly `x`. -/
def pyFormatFixed (d : Nat) (x : ℚ) : String :=
  pyFormatFixedFrac d x.num (x.den : Int)

/-- Split a character list at newline characters (keeping empty pieces). -/
def splitCharsOnNl : List Char → List (List Char)
  | [] => [[]]
  | c :: rest =>
      let r := splitCharsOnNl rest
      if c = '\n' then [] :: r
      else
        match r with
        | [] => [[c]]
        | h :: t => (c :: h) :: t

/-- Python `s.splitlines()` restricted to `\n` line terminators (the only
terminator relevant to the subprocess output parsed in this repository):
splits at newlines and drops a trailing empty piece, so `""` gives `[]`
and `"a\nb\n"` gives `["a", "b"]`. -/
def pySplitlines (s : String) : List String :=
  match s.data with
  | [] => []
  | cs =>
      let parts := splitCharsOnNl cs
      let parts :=
        match parts.getLast? with
        | some [] => parts.dropLast
        | _ => parts
      parts.map String.mk

/-- Python `str(float)` for a value exactly representable as the rational
`q`: shortest fixed-point form with at least one fractional digit.  Used
only inside messages no theorem below inspects. -/
def pyFloatStr (q : ℚ) : String :=
  if q.den = 1 then toString q.num ++ ".0"
  else
    match (List.range 18).find? (fun k => decide (0 < k) && decide (10 ^ k % q.den = 0)) with
    | some k =>
        let n := (q.num * (10 : Int) ^ k) / (q.den : Int)
        let m := n.natAbs
        (if n < 0 then "-" else "") ++ toString (m / 10 ^ k) ++ "." ++
          (let fs := toString (m % 10 ^ k)
           String.mk (List.replicate (k - fs.length) ('0')) ++ fs)
    | none => toString q.num ++ "/" ++ toString q.den

/-! ## host.py: size-string helpers -/

/-- Embeds `_size_string_to_bytes` (host.py lines 24-38).  The Python
function returns `None` only for a `None` argument (impossible for a
`String` input); `none` here models the `ValueError` that `int(s)`
raises on a non-integer string. -/
def _size_string_to_bytes (s : String) : Option Int :=
  if pyEndsWith s ("G") then (pyInt (pyDropLast s)).map (fun gigs => gigs * 1024 ^ 3)
  else if pyEndsWith s ("M") then (pyInt (pyDropLast s)).map (fun megs => megs * 1024 ^ 2)
  else if pyEndsWith s ("K") then (pyInt (pyDropLast s)).map (fun kilos => kilos * 1024)
  else pyInt s

/-- Embeds `_bytes_to_size_string` (host.py lines 41-57): convert a number
in bytes to a sensible unit, choosing a unit only when the value strictly
exceeds it, with two decimal places.  `"%0.2f" % (b / float(u))` is
modelled as fixed-point rounding of the exact quotient `b / u`; the two
agree because dividing an exactly representable `b` (`|b| < 2^53`, true of
every byte count in this development) by a power of two is exact in
binary floating point. -/
def _bytes_to_size_string (b : Int) : String :=
  let kb : Int := 1024
  let mb : Int := kb * 1024
  let gb : Int := mb * 1024
  let tb : Int := gb * 1024
  if tb < b then pyFormatFixedFrac 2 b tb ++ "TiB"
  else if gb < b then pyFormatFixedFrac 2 b gb ++ "GiB"
  else if mb < b then pyFormatFixedFrac 2 b mb ++ "MiB"
  else if kb < b then pyFormatFixedFrac 2 b kb ++ "KiB"
  else toString b

/-! ## host.py: Monitor variants

Each `run_test` is embedded as a function from the variant's mutable
configuration state and the outcome of its external probe to the updated
state and an `Except String Outcome`: `.ok` models a normal return through
`record_fail`/`record_success`, `.error` models an exception escaping
`run_test`.  `record_success(message)`/`record_fail(message)` of the
Monitor base class (not under src/) only stamp the message into the
failure-state machine and report the boolean, so the outcome of one
`run_test` call is fully described by which of the two was called and
with which message; `record_success()` without argument is modelled as
`Outcome.success ""`. -/

/-- Outcome of one `run_test` call: which of `record_success` /
`record_fail` was invoked, and with which message. -/
inductive Outcome where
  | success (message : String)
  | fail (message : String)
deriving DecidableEq

instance exceptDecEq {ε α : Type} [DecidableEq ε] [DecidableEq α] :
    DecidableEq (Except ε α) := fun x y =>
  match x, y with
  | .ok a, .ok b =>
      if h : a = b then isTrue (by rw [h]) else isFalse (fun hc => by cases hc; exact h rfl)
  | .error a, .error b =>
      if h : a = b then isTrue (by rw [h]) else isFalse (fun hc => by cases hc; exact h rfl)
  | .ok _, .error _ => isFalse (fun hc => by cases hc)
  | .error _, .ok _ => isFalse (fun hc => by cases hc)

/-- Returns true iff the embedded `run_test` returned normally (no
exception escaped). -/
def returnsNormally : Except String Outcome → Bool
  | .ok _ => true
  | .error _ => false

/-- Configuration state of `MonitorDiskSpace` (the POSIX `use_statvfs`
branch; the Windows branch differs only in which probe fills the same
numbers). -/
structure MonitorDiskSpaceState where
  partition : String
  limit : Option Int
deriving DecidableEq

/-- The fields of `os.statvfs` read by `MonitorDiskSpace.run_test`. -/
structure StatvfsResult where
  f_bavail : Nat
  f_frsize : Nat
  f_blocks : Nat
deriving DecidableEq

/-- Embeds `MonitorDiskSpace.run_test` (host.py lines 81-100).  The probe
parameter is the behaviour of `os.statvfs`: `.error` is any exception it
raises, caught by the `except Exception` clause.  A result with
`f_blocks = 0` makes the percent computation raise `ZeroDivisionError`,
still inside the `try`.  `"%d" % percent` of the non-negative float
`f_bavail / f_blocks * 100` is modelled as Nat floor division, exact at
every input below.  `if self.limit and space <= self.limit` uses Python
truthiness: a `None` or `0` limit disables the comparison. -/
def MonitorDiskSpace.run_test (st : MonitorDiskSpaceState)
    (probe : Except String StatvfsResult) :
    MonitorDiskSpaceState × Except String Outcome :=
  let outcome : Outcome :=
    match probe with
    | .error e => .fail ("Couldn't get free disk space: " ++ e)
    | .ok r =>
        if r.f_blocks = 0 then
          .fail ("Couldn't get free disk space: float division by zero")
        else
          let space : Int := (r.f_bavail * r.f_frsize : Nat)
          let percent : Nat := r.f_bavail * 100 / r.f_blocks
          let msg := _bytes_to_size_string space ++ " free (" ++ toString percent ++ "%)"
          match st.limit with
          | none => .success msg
          | some l => if l ≠ 0 ∧ space ≤ l then .fail msg else .success msg
  (st, .ok outcome)

/-- Configuration state of `MonitorLoadAvg`: `which` selects the
1/5/15-minute figure (validated to 0..2 by the config layer), `max` is the
threshold. -/
structure MonitorLoadAvgState where
  which : Fin 3
  max : ℚ
deriving DecidableEq

/-- Embeds `MonitorLoadAvg.run_test` (host.py lines 189-197).  The probe is
the behaviour of `os.getloadavg()`: `.error` is any exception, caught by
the `except Exception` clause; `.ok` carries the three load figures. -/
def MonitorLoadAvg.run_test (st : MonitorLoadAvgState)
    (probe : Except String (ℚ × ℚ × ℚ)) :
    MonitorLoadAvgState × Except String Outcome :=
  let outcome : Outcome :=
    match probe with
    | .error e => .fail ("Exception getting loadavg: " ++ e)
    | .ok la =>
        let v := if st.which.val = 0 then la.1 else if st.which.val = 1 then la.2.1 else la.2.2
        if st.max < v then .fail (pyFormatFixed 2 v) else .success (pyFormatFixed 2 v)
  (st, .ok outcome)

/-- Configuration state of `MonitorMemory`. -/
structure MonitorMemoryState where
  percent_free : Int
deriving DecidableEq

/-- The fields of `psutil.virtual_memory()` read by
`MonitorMemory.run_test`. -/
structure VirtualMemoryStats where
  available : Nat
  total : Nat
deriving DecidableEq

/-- Embeds `MonitorMemory.run_test` (host.py lines 219-228).  There is no
`try` in its body: when psutil is installed, an exception raised by the
`psutil.virtual_memory()` probe propagates out of `run_test` (modelled as
`.error`), as does the `ZeroDivisionError` of a zero total.
`int(available / total * 100)` of the non-negative quotient is modelled as
Nat floor division. -/
def MonitorMemory.run_test (psutilAvailable : Bool) (st : MonitorMemoryState)
    (probe : Except String VirtualMemoryStats) :
    MonitorMemoryState × Except String Outcome :=
  if psutilAvailable = false then (st, .ok (.fail ("psutil is not installed")))
  else
    match probe with
    | .error e => (st, .error e)
    | .ok stats =>
        if stats.total = 0 then (st, .error ("ZeroDivisionError: division by zero"))
        else
          let percent : Int := (stats.available * 100 / stats.total : Nat)
          let message := toString percent ++ "% free"
          if percent < st.percent_free then (st, .ok (.fail message))
          else (st, .ok (.success message))

/-- Configuration state of `MonitorSwap`. -/
structure MonitorSwapState where
  percent_free : Int
deriving DecidableEq

/-- The field of `psutil.swap_memory()` read by `MonitorSwap.run_test`:
the used percentage, a float. -/
structure SwapMemoryStats where
  percent : ℚ
deriving DecidableEq

/-- Embeds `MonitorSwap.run_test` (host.py lines 253-262).  There is no
`try` in its body: an exception raised by the `psutil.swap_memory()` probe
propagates out of `run_test` (modelled as `.error`).  The free percentage
`100 - stats.percent` is a float rendered by `str` inside the message. -/
def MonitorSwap.run_test (psutilAvailable : Bool) (st : MonitorSwapState)
    (probe : Except String SwapMemoryStats) :
    MonitorSwapState × Except String Outcome :=
  if psutilAvailable = false then (st, .ok (.fail ("psutil is not installed")))
  else
    match probe with
    | .error e => (st, .error e)
    | .ok stats =>
        let percent : ℚ := 100 - stats.percent
        let message := pyFloatStr percent ++ "% free"
        if percent < (st.percent_free : ℚ) then (st, .ok (.fail message))
        else (st, .ok (.success message))

/-- Configuration state of `MonitorPortAudit`. -/
structure MonitorPortAuditState where
  path : String
deriving DecidableEq

/-- Behaviour of the `subprocess.check_output([self.path, "-a", "-X", "1"])`
call in `MonitorPortAudit.run_test`:
- `ok`: the tool exited 0; the decoded output.
- `calledProcessError`: nonzero exit; carries `e.output`, which is a
  `bytes` object (the code assigns it to `output` without decoding).
- `osError`: the invocation itself failed (e.g. missing binary).
- `otherException`: any other exception from the invocation. -/
inductive PortauditProbe where
  | ok (output : String)
  | calledProcessError (outputBytes : List (UInt8))
  | osError (msg : String)
  | otherException (msg : String)
deriving DecidableEq

/-- One line matched against the compiled pattern
`(\d+) problem\(s\) in your installed packages found` with `re.match`
(anchored at the start of the line, trailing text allowed): the greedy
`(\d+)` takes the maximal digit run, after which the literal tail must
follow.  Returns the captured count. -/
def portauditMatchLine (line : String) : Option Nat :=
  let ds := line.data.takeWhile Char.isDigit
  if !ds.isEmpty &&
      (" problem(s) in your installed packages found").data.isPrefixOf (line.data.drop ds.length)
    then some (digitsToNat ds)
  else none

/-- The `for line in output.splitlines()` loop of
`MonitorPortAudit.run_test` (host.py lines 148-158): the first line
matching the pattern decides the outcome; count 0 is success, count 1
fails with "1 problem", a larger count fails with "N problems"; when no
line matches, success. -/
def portauditScan : List String → Outcome
  | [] => .success ("")
  | line :: rest =>
      match portauditMatchLine line with
      | some 0 => .success ("")
      | some 1 => .fail ("1 problem")
      | some (n + 2) => .fail (toString (n + 2) ++ " problems")
      | none => portauditScan rest

/-- Embeds `MonitorPortAudit.run_test` (host.py lines 132-160).  An empty
configured path is first overwritten with the default tool location (a
mutation of `self.path` that survives the call).  On
`CalledProcessError` the undecoded `bytes` output is iterated: an empty
`bytes` has no lines, so the loop records success; otherwise
`regexp.match` on a `bytes` line raises `TypeError`, which the outer
`except Exception` clause converts to `record_fail`.  Every path through
the body returns normally. -/
def MonitorPortAudit.run_test (st : MonitorPortAuditState) (probe : PortauditProbe) :
    MonitorPortAuditState × Except String Outcome :=
  let st := if st.path = "" then MonitorPortAuditState.mk ("/usr/local/sbin/portaudit") else st
  let outcome : Outcome :=
    match probe with
    | .ok output => portauditScan (pySplitlines output)
    | .calledProcessError bs =>
        if bs.isEmpty then .success ("")
        else .fail ("Could not run portaudit: cannot use a string pattern on a bytes-like object")
    | .osError e => .fail ("Error running " ++ st.path ++ ": " ++ e)
    | .otherException e => .fail ("Error running portaudit: " ++ e)
  (st, .ok outcome)

/-! ## file.py: Loggers -/

/-- Modelled from the spec: the `Monitor` base class
(src/n_monitor/Monitors/monitor.py is not under src/).  Per the spec's
data model a Monitor exposes `virtual_fail_count` (0 = passing),
`was_skipped`, the last result message (`get_result()`),
`first_failure_time()` (rendered by the external `format_datetime`, which
is also outside src/ and therefore modelled here as the already-formatted
string `first_failure_time_fmt`), `last_run_duration` (seconds, float)
and the `dependencies` list.  Every Monitor has the `was_skipped`
attribute, so `hasattr(monitor, "was_skipped")` is always true. -/
structure Monitor where
  virtual_fail_count : Int
  was_skipped : Bool
  get_result : String
  first_failure_time_fmt : String
  last_run_duration : ℚ
  dependencies : List String
deriving DecidableEq

/-- The FileLogger `dateformat` option: its allowed values are
`"timestamp"` and `"iso8601"`. -/
inductive DateFormat where
  | timestamp
  | iso8601
deriving DecidableEq

/-- Embeds `FileLogger._get_datestring` (file.py lines 67-70).
`epochNow` stands for `int(time.time())` and `isoNow` for
`format_datetime(arrow.now(), self.tz)` (both probes of the clock,
the latter rendered by code outside src/). -/
def FileLogger._get_datestring (df : DateFormat) (epochNow : Nat) (isoNow : String) : String :=
  match df with
  | .iso8601 => isoNow
  | .timestamp => toString epochNow

/-- Embeds `FileLogger.save_result2` (file.py lines 72-99): the text
appended to the log file for one monitor, `none` when nothing is written.
The trailing `"\n"` is the separate `write("\n")` of line 94. -/
def FileLogger.save_result2 (only_failures : Bool) (df : DateFormat)
    (epochNow : Nat) (isoNow : String) (name : String) (m : Monitor) : Option String :=
  if only_failures && m.virtual_fail_count == 0 then none
  else if 0 < m.virtual_fail_count then
    some (FileLogger._get_datestring df epochNow isoNow ++ " " ++ name ++ ": failed since "
      ++ m.first_failure_time_fmt ++ "; VFC=" ++ toString m.virtual_fail_count
      ++ " (" ++ m.get_result ++ ") (" ++ pyFormatFixed 3 m.last_run_duration ++ "s)" ++ "\n")
  else
    some (FileLogger._get_datestring df epochNow isoNow ++ " " ++ name ++ ": ok ("
      ++ pyFormatFixed 3 m.last_run_duration ++ "s)" ++ "\n")

/-- Embeds the `MonitorResult` snapshot class (file.py lines 115-127). -/
structure MonitorResult where
  virtual_fail_count : Int
  result : Option String
  first_failure_time : Option String
  last_run_duration : Option ℚ
  status : String
  dependencies : List String
deriving DecidableEq

/-- The field values set by `MonitorResult.__init__`: in particular the
default status is `"Fail"`. -/
def MonitorResult.init : MonitorResult :=
  MonitorResult.mk 0 none none none ("Fail") []

/-- Embeds the `MonitorJsonPayload` class (file.py lines 130-136): the
structured document `process_batch` serializes. -/
structure MonitorJsonPayload where
  generated : String
  monitors : List (String × MonitorResult)
deriving DecidableEq

/-- Python `d[k] = v` on a dict represented as an insertion-ordered
association list: replace the value at an existing key in place, else
append. -/
def dictInsert {α : Type} : List (String × α) → String → α → List (String × α)
  | [], k, v => [(k, v)]
  | p :: rest, k, v => if p.1 = k then (k, v) :: rest else p :: dictInsert rest k v

/-- Python `d.get(k)` on the same representation. -/
def dictLookup {α : Type} : List (String × α) → String → Option α
  | [], _ => none
  | p :: rest, k => if p.1 = k then some p.2 else dictLookup rest k

/-- The `MonitorResult` that `JsonLogger.save_result2` (file.py lines
162-176) builds for one monitor: a fresh `MonitorResult` (status
defaulting to `"Fail"`), filled from the monitor, with status upgraded to
`"Skipped"` when the monitor was skipped, else to `"OK"` when
`virtual_fail_count <= 0`. -/
def JsonLogger.resultFor (m : Monitor) : MonitorResult :=
  let status :=
    if m.was_skipped then "Skipped"
    else if m.virtual_fail_count ≤ 0 then "OK"
    else MonitorResult.init.status
  MonitorResult.mk m.virtual_fail_count (some m.get_result) (some m.first_failure_time_fmt)
    (some m.last_run_duration) status m.dependencies

/-- Embeds `JsonLogger.save_result2` (file.py lines 162-176): set up
`batch_data` to an empty dict if it is `None`, then store the snapshot
under the monitor's name.  Returns the new `batch_data` dict. -/
def JsonLogger.save_result2 (batch_data : Option (List (String × MonitorResult)))
    (name : String) (m : Monitor) : List (String × MonitorResult) :=
  dictInsert (batch_data.getD []) name (JsonLogger.resultFor m)

/-- Embeds `JsonLogger.process_batch` (file.py lines 178-193) as a data
transformer: given `format_datetime(arrow.now())` and the current
`batch_data`, return the payload written to the file (`none` when
`batch_data` is `None`, in which case the `with open` block is skipped and
nothing is written) and the new `batch_data`, which is always the empty
dict. -/
def JsonLogger.process_batch (generatedNow : String)
    (batch_data : Option (List (String × MonitorResult))) :
    Option MonitorJsonPayload × Option (List (String × MonitorResult)) :=
  match batch_data with
  | some bd => (some (MonitorJsonPayload.mk generatedNow bd), some [])
  | none => (none, some [])

/-- A primitive file-system effect on the destination file. -/
inductive FileOp where
  | truncate
  | append (s : String)
deriving DecidableEq

/-- Embeds the file-system effects of `JsonLogger.process_batch` (file.py
lines 184-192) on its destination when `batch_data` is not `None`:
`open(self.filename, "w")` truncates the destination in place, then
`json.dump` writes the serialized payload into the same file.  There is no
temporary file and no rename. -/
def JsonLogger.process_batch_ops (serialized : String)
    (batch_data_present : Bool) : List FileOp :=
  if batch_data_present then [FileOp.truncate, FileOp.append serialized] else []

/-- Effect of one file operation on the destination's content. -/
def applyFileOp (content : String) : FileOp → String
  | .truncate => ""
  | .append s => content ++ s

/-- Every content the destination file passes through while a list of
operations runs, starting from `initial` (inclusive of start and end). -/
def fileContents (initial : String) (ops : List FileOp) : List String :=
  List.scanl applyFileOp initial ops

/-- Returns true iff `run_test` returned normally via `record_success`. -/
def recordedSuccess : Except String Outcome → Bool
  | .ok (.success _) => true
  | _ => false

/-- Returns true iff `run_test` returned normally via `record_fail`. -/
def recordedFail : Except String Outcome → Bool
  | .ok (.fail _) => true
  | _ => false

/-- A concrete currently-passing monitor (fail count 0). -/
def monitorPassing : Monitor :=
  Monitor.mk 0 false ("all good") ("") (mkRat 3 250) []

/-- A concrete failing monitor with `virtual_fail_count` 3. -/
def monitorFailing : Monitor :=
  Monitor.mk 3 false ("connection refused") ("2026-01-01 10:00:00+00:00") (mkRat 1 8) []

/-- A concrete skipped monitor that also has a positive fail count, to
exercise the status precedence. -/
def monitorSkipped : Monitor :=
  Monitor.mk 2 true ("skipped") ("") (mkRat 1 2) []

/-- A portaudit report whose first pattern-matching line reports 0
problems while a later matching line reports 5. -/
def portauditFirstMatchOutput : String :=
  "0 problem(s) in your installed packages found\n5 problem(s) in your installed packages found"

/-- The accumulated batch after one cycle saving monitors `alpha`
(passing) and `beta` (failing with count 3). -/
def jsonCycleBatch : List (String × MonitorResult) :=
  JsonLogger.save_result2
    (some (JsonLogger.save_result2 none ("alpha") monitorPassing)) ("beta") monitorFailing

/-- The first flush of that cycle: the written payload and the new
batch state. -/
def jsonCycleFlush1 : Option MonitorJsonPayload × Option (List (String × MonitorResult)) :=
  JsonLogger.process_batch ("2026-01-02T00:00:00+00:00") (some jsonCycleBatch)

/-- A second flush with no intervening `save_result2`. -/
def jsonCycleFlush2 : Option MonitorJsonPayload × Option (List (String × MonitorResult)) :=
  JsonLogger.process_batch ("2026-01-02T00:01:00+00:00") jsonCycleFlush1.2

/-- Lemma: dict lookup after insertion finds the inserted value. -/
theorem dictLookup_dictInsert {α : Type} (d : List (String × α)) (k : String) (v : α) :
    dictLookup (dictInsert d k v) k = some v := by
  induction d with
  | nil => simp [dictInsert, dictLookup]
  | cons p rest ih =>
      by_cases h : p.1 = k
      · simp [dictInsert, dictLookup, h]
      · simp [dictInsert, dictLookup, h, ih]

/-- Lemma: `portauditScan` is determined by the first line the pattern matches:
nothing or a zero count is success, a positive count is failure with the
corresponding message. -/
theorem portauditScan_eq_findSome (lines : List String) :
    portauditScan lines =
      match lines.findSome? portauditMatchLine with
      | none => Outcome.success ("")
      | some 0 => Outcome.success ("")
      | some 1 => Outcome.fail ("1 problem")
      | some (n + 2) => Outcome.fail (toString (n + 2) ++ " problems") := by
  induction lines with
  | nil => rfl
  | cons l rest ih =>
      simp only [portauditScan, List.findSome?]
      cases hm : portauditMatchLine l with
      | none => simpa using ih
      | some n =>
          match n with
          | 0 => rfl
          | 1 => rfl
          | (k + 2) => rfl

/-! ## Claims -/

/-- C1, counterexample: the claim says `run_test` returns normally for
every possible behaviour of the psutil probe calls, in particular for
`MonitorMemory` and `MonitorSwap`; but when the probe raises (here an
`OSError`), both bodies — which contain no `try` — let the exception
escape. -/
theorem memory_swap_probe_exception_escapes :
    returnsNormally (MonitorMemory.run_test true (MonitorMemoryState.mk 20)
        (Except.error ("OSError: out of file descriptors"))).2 = false
  ∧ returnsNormally (MonitorSwap.run_test true (MonitorSwapState.mk 20)
        (Except.error ("OSError: out of file descriptors"))).2 = false := by
  exact ⟨rfl, rfl⟩

/-- C1 (amended): `run_test` of DiskSpace, LoadAvg and PortAudit never
raises, whatever the probe does — every probe failure is caught and
converted to `record_fail`.  Memory and Swap handle only the
psutil-missing case with `record_fail`; when psutil is present, an
exception raised by the psutil probe call propagates out of `run_test`
(for Memory also the `ZeroDivisionError` of a zero total), while a
successful probe always returns normally. -/
theorem run_test_exception_containment :
    (∀ st p, returnsNormally (MonitorDiskSpace.run_test st p).2 = true)
  ∧ (∀ st p, returnsNormally (MonitorLoadAvg.run_test st p).2 = true)
  ∧ (∀ st p, returnsNormally (MonitorPortAudit.run_test st p).2 = true)
  ∧ (∀ st p, returnsNormally (MonitorMemory.run_test false st p).2 = true)
  ∧ (∀ st stats, stats.total ≠ 0 →
      returnsNormally (MonitorMemory.run_test true st (Except.ok stats)).2 = true)
  ∧ (∀ st e, (MonitorMemory.run_test true st (Except.error e)).2 = Except.error e)
  ∧ (∀ st p, returnsNormally (MonitorSwap.run_test false st p).2 = true)
  ∧ (∀ st stats, returnsNormally (MonitorSwap.run_test true st (Except.ok stats)).2 = true)
  ∧ (∀ st e, (MonitorSwap.run_test true st (Except.error e)).2 = Except.error e) := by
  refine ⟨fun st p => rfl, fun st p => rfl, fun st p => rfl, fun st p => rfl, ?_, fun st e => rfl,
    fun st p => rfl, ?_, fun st e => rfl⟩
  · intro st stats h
    simp only [MonitorMemory.run_test, returnsNormally, h, if_false, reduceCtorEq]
    split
    · rfl
    · rename_i heq
      split at heq <;> simp at heq
  · intro st stats
    simp only [MonitorSwap.run_test, returnsNormally, reduceCtorEq, if_false]
    split
    · rfl
    · rename_i heq
      split at heq <;> simp at heq

/-- C1, witness for the amended theorem: a concrete successful memory
probe (50 of 100 units available, 20% required) returns normally. -/
theorem run_test_exception_containment_witness :
    returnsNormally (MonitorMemory.run_test true (MonitorMemoryState.mk 20)
      (Except.ok (VirtualMemoryStats.mk 50 100))).2 = true := by
  exact run_test_exception_containment.2.2.2.2.1 (MonitorMemoryState.mk 20)
    (VirtualMemoryStats.mk 50 100) (by decide)

/-- C2, counterexample: the round trip fails for the byte counts 1048576
and 5368709120 — the formatter emits `"1024.00KiB"` and `"5.00GiB"`, which
`_size_string_to_bytes` cannot parse (it strips only a bare trailing
`K`/`M`/`G` and otherwise requires an integer string, so `int()` raises
`ValueError`, modelled as `none`). -/
theorem size_string_roundtrip_counterexample :
    _bytes_to_size_string 1048576 = "1024.00KiB"
  ∧ _size_string_to_bytes (_bytes_to_size_string 1048576) = none
  ∧ _bytes_to_size_string 5368709120 = "5.00GiB"
  ∧ _size_string_to_bytes (_bytes_to_size_string 5368709120) = none := by
  decide

/-- C2 (amended): among the representative byte counts, the round trip
`_size_string_to_bytes (_bytes_to_size_string b)` recovers `b` exactly for
0, 1023 and 1024 — the values the formatter renders as bare integers
(units apply only strictly above 1 KiB, so 1024 itself stays bare) — while
for 1048576 and 5368709120 the formatter produces two-decimal
`KiB`/`GiB` strings the parser rejects; at an exact unit boundary the
formatter chooses the next smaller unit (1 MiB renders as
`"1024.00KiB"`), and the parser accepts only bare integers or an integer
with a single `K`/`M`/`G` suffix. -/
theorem size_string_roundtrip_amended :
    _size_string_to_bytes (_bytes_to_size_string 0) = some 0
  ∧ _size_string_to_bytes (_bytes_to_size_string 1023) = some 1023
  ∧ _size_string_to_bytes (_bytes_to_size_string 1024) = some 1024
  ∧ _bytes_to_size_string 1024 = "1024"
  ∧ _bytes_to_size_string 1048576 = "1024.00KiB"
  ∧ _bytes_to_size_string 5368709120 = "5.00GiB"
  ∧ _size_string_to_bytes ("1024.00KiB") = none
  ∧ _size_string_to_bytes ("5.00GiB") = none
  ∧ _size_string_to_bytes ("5G") = some 5368709120
  ∧ _size_string_to_bytes ("1024K") = some 1048576 := by
  decide

/-- C3, counterexample: flushing is not write-then-replace.  Starting from
a destination holding the previous snapshot, the operation trace of
`process_batch` (truncating `open(..., "w")`, then the `json.dump` write)
drives the file through the empty content, which is neither the previous
nor the new complete snapshot — refuting "the destination file never holds
a partial truncated document". -/
theorem json_flush_truncation_counterexample :
    fileContents ("previous snapshot") (JsonLogger.process_batch_ops ("new snapshot") true) =
      ["previous snapshot", "", "new snapshot"]
  ∧ ("" : String) ≠ "previous snapshot"
  ∧ ("" : String) ≠ "new snapshot" := by
  decide

/-- C3 (amended): `process_batch` overwrites the destination in place:
with a batch present it truncates the file (mode `"w"`), leaving it
momentarily empty, then writes the serialized document, so the contents
pass exactly through `[old, "", new]`; there is no temporary file and no
atomic rename, and only after the write completes does the file hold the
new complete snapshot. -/
theorem json_flush_truncate_in_place (old serialized : String) :
    fileContents old (JsonLogger.process_batch_ops serialized true) =
      [old, "", serialized] := by
  simp [fileContents, JsonLogger.process_batch_ops, applyFileOp, List.scanl_cons,
    List.scanl_nil, String.empty_append]

/-- C4, counterexample: with a configured limit of 0 bytes
(`_size_string_to_bytes "0" = 0`) and zero free space, the free bytes are
less than or equal to the limit, yet `run_test` records success, because
`if self.limit and space <= self.limit` treats the zero limit as falsy. -/
theorem diskspace_zero_limit_counterexample :
    (MonitorDiskSpace.run_test (MonitorDiskSpaceState.mk ("/") (some 0))
        (Except.ok (StatvfsResult.mk 0 4096 100))).2 =
      Except.ok (Outcome.success ("0 free (0%)"))
  ∧ _size_string_to_bytes ("0") = some 0
  ∧ ((0 * 4096 : Int) ≤ 0) := by
  decide

/-- C4 (amended): whenever the free-space probe succeeds (and the
filesystem reports a nonzero block count, so the percent computation does
not raise): with the limit unset or zero — both falsy in
`if self.limit and space <= self.limit` — `run_test` records success
regardless of free space; with a nonzero limit it records failure iff the
free bytes are ≤ the limit. -/
theorem diskspace_threshold_amended (st : MonitorDiskSpaceState) (stats : StatvfsResult)
    (hb : stats.f_blocks ≠ 0) :
    (st.limit = none →
        recordedSuccess (MonitorDiskSpace.run_test st (Except.ok stats)).2 = true)
  ∧ (st.limit = some 0 →
        recordedSuccess (MonitorDiskSpace.run_test st (Except.ok stats)).2 = true)
  ∧ (∀ l : Int, st.limit = some l → l ≠ 0 →
        l < ((stats.f_bavail * stats.f_frsize : Nat) : Int) →
        recordedSuccess (MonitorDiskSpace.run_test st (Except.ok stats)).2 = true)
  ∧ (∀ l : Int, st.limit = some l → l ≠ 0 →
        ((stats.f_bavail * stats.f_frsize : Nat) : Int) ≤ l →
        recordedFail (MonitorDiskSpace.run_test st (Except.ok stats)).2 = true) := by
  refine ⟨?_, ?_, ?_, ?_⟩
  · intro h
    simp only [MonitorDiskSpace.run_test, if_neg hb, h]
    rfl
  · intro h
    simp only [MonitorDiskSpace.run_test, if_neg hb, h]
    rw [if_neg (fun hc => hc.1 rfl)]
    rfl
  · intro l h hlnz hlt
    simp only [MonitorDiskSpace.run_test, if_neg hb, h]
    rw [if_neg (fun hc => absurd hc.2 (not_le.mpr hlt))]
    rfl
  · intro l h hlnz hle
    simp only [MonitorDiskSpace.run_test, if_neg hb, h]
    rw [if_pos ⟨hlnz, hle⟩]
    rfl

/-- C4, witness for the amended theorem: 5120 free bytes against a
nonzero limit of 1000 records success; the same probe against a limit of
8192 records failure. -/
theorem diskspace_threshold_amended_witness :
    recordedSuccess (MonitorDiskSpace.run_test (MonitorDiskSpaceState.mk ("/") (some 1000))
        (Except.ok (StatvfsResult.mk 10 512 100))).2 = true
  ∧ recordedFail (MonitorDiskSpace.run_test (MonitorDiskSpaceState.mk ("/") (some 8192))
        (Except.ok (StatvfsResult.mk 10 512 100))).2 = true := by
  constructor
  · exact (diskspace_threshold_amended (MonitorDiskSpaceState.mk ("/") (some 1000))
      (StatvfsResult.mk 10 512 100) (by decide)).2.2.1 1000 rfl (by decide) (by decide)
  · exact (diskspace_threshold_amended (MonitorDiskSpaceState.mk ("/") (some 8192))
      (StatvfsResult.mk 10 512 100) (by decide)).2.2.2 8192 rfl (by decide) (by decide)

/-- C5: saving one passing and one failing monitor (fail count 3) and
flushing writes a document whose monitors mapping has exactly the keys
`alpha` and `beta`, the failing entry carrying `virtual_fail_count` 3 and
status `"Fail"`; a second flush with no intervening save writes a document
with an empty monitors mapping — the accumulator is cleared by every
flush. -/
theorem json_two_monitor_cycle :
    (jsonCycleFlush1.1.map (fun p => p.monitors.map Prod.fst) = some ["alpha", "beta"])
  ∧ ((jsonCycleFlush1.1.bind (fun p => dictLookup p.monitors ("beta"))).map
      (fun r => (r.virtual_fail_count, r.status)) = some ((3 : Int), "Fail"))
  ∧ (jsonCycleFlush2.1.map (fun p => p.monitors) = some []) := by
  decide

/-- C6: with `only_failures` a passing monitor (fail count 0) writes
nothing; a failing monitor appends exactly the one line
`"<date> <name>: failed since <first-failure-date>; VFC=<count>
(<message>) (<duration>s)"` terminated by a single newline, where the
date is the raw integer epoch under the `timestamp` dateformat and the
calendar-formatted string under `iso8601`. -/
theorem filelogger_only_failures (df : DateFormat) (epochNow : Nat) (isoNow name : String)
    (m : Monitor) :
    (m.virtual_fail_count = 0 →
        FileLogger.save_result2 true df epochNow isoNow name m = none)
  ∧ (0 < m.virtual_fail_count →
        FileLogger.save_result2 true df epochNow isoNow name m =
          some (FileLogger._get_datestring df epochNow isoNow ++ " " ++ name
            ++ ": failed since " ++ m.first_failure_time_fmt
            ++ "; VFC=" ++ toString m.virtual_fail_count
            ++ " (" ++ m.get_result ++ ") ("
            ++ pyFormatFixed 3 m.last_run_duration ++ "s)" ++ "\n"))
  ∧ FileLogger._get_datestring DateFormat.timestamp epochNow isoNow = toString epochNow
  ∧ FileLogger._get_datestring DateFormat.iso8601 epochNow isoNow = isoNow := by
  refine ⟨?_, ?_, rfl, rfl⟩
  · intro h
    simp [FileLogger.save_result2, h]
  · intro h
    have hne : m.virtual_fail_count ≠ 0 := by omega
    simp [FileLogger.save_result2, hne, h]

/-- C6, witness: the passing monitor writes nothing; the failing monitor
writes the fully rendered line. -/
theorem filelogger_only_failures_witness :
    FileLogger.save_result2 true DateFormat.timestamp 1700000000 ("") ("disk") monitorPassing
      = none
  ∧ FileLogger.save_result2 true DateFormat.timestamp 1700000000 ("") ("disk") monitorFailing
      = some ("1700000000 disk: failed since 2026-01-01 10:00:00+00:00; VFC=3 (connection refused) (0.125s)\n") := by
  constructor
  · exact (filelogger_only_failures DateFormat.timestamp 1700000000 ("") ("disk")
      monitorPassing).1 (by decide)
  · exact ((filelogger_only_failures DateFormat.timestamp 1700000000 ("") ("disk")
      monitorFailing).2.1 (by decide)).trans (by decide)

/-- C7: with `which = 1` (the 5-minute figure) and `max = 2.0`, a
successful probe measuring a 5-minute load of 2.5 records failure with
the message `"2.50"` (which therefore contains `"2.50"`), and one
measuring 1.5 records success; the other two load figures are
irrelevant. -/
theorem loadavg_5min_threshold (a c : ℚ) :
    (MonitorLoadAvg.run_test (MonitorLoadAvgState.mk 1 2)
        (Except.ok (a, mkRat 5 2, c))).2 = Except.ok (Outcome.fail ("2.50"))
  ∧ (MonitorLoadAvg.run_test (MonitorLoadAvgState.mk 1 2)
        (Except.ok (a, mkRat 3 2, c))).2 = Except.ok (Outcome.success ("1.50")) := by
  constructor
  · exact congrArg (fun s => Except.ok (Outcome.fail s))
      (show pyFormatFixed 2 (mkRat 5 2) = "2.50" by decide)
  · exact congrArg (fun s => Except.ok (Outcome.success s))
      (show pyFormatFixed 2 (mkRat 3 2) = "1.50" by decide)

/-- C8, counterexample: an output whose first pattern-matching line
reports count 0 and whose second matching line reports count 5 > 0:
some line matches the pattern with a positive count, yet `run_test`
records success, because only the first matching line decides. -/
theorem portaudit_some_match_counterexample :
    (pySplitlines portauditFirstMatchOutput).map portauditMatchLine = [some 0, some 5]
  ∧ (MonitorPortAudit.run_test (MonitorPortAuditState.mk ("/usr/local/sbin/portaudit"))
        (PortauditProbe.ok portauditFirstMatchOutput)).2 =
      Except.ok (Outcome.success ("")) := by
  decide

/-- C8 (amended): for every tool output, the outcome of a successful
invocation is decided by the FIRST line matching
`"<N> problem(s) in your installed packages found"`: no matching line or
a first match of 0 records success; a first match of 1 records failure
`"1 problem"`; a first match of N ≥ 2 records failure `"N problems"`.
Later matching lines are ignored. -/
theorem portaudit_first_match_decides (st : MonitorPortAuditState) (output : String) :
    (MonitorPortAudit.run_test st (PortauditProbe.ok output)).2 =
      Except.ok (match (pySplitlines output).findSome? portauditMatchLine with
        | none => Outcome.success ("")
        | some 0 => Outcome.success ("")
        | some 1 => Outcome.fail ("1 problem")
        | some (n + 2) => Outcome.fail (toString (n + 2) ++ " problems")) := by
  show Except.ok (portauditScan (pySplitlines output)) = _
  rw [portauditScan_eq_findSome]

/-- C9: `JsonLogger.save_result2` stores under the monitor's name a
snapshot whose status follows a fixed precedence: `"Skipped"` whenever
`was_skipped` is true (even with a positive fail count), otherwise
`"OK"` iff `virtual_fail_count ≤ 0`, and in all remaining cases the
`"Fail"` default of the freshly constructed `MonitorResult`. -/
theorem json_status_precedence (bd : Option (List (String × MonitorResult)))
    (name : String) (m : Monitor) :
    dictLookup (JsonLogger.save_result2 bd name m) name = some (JsonLogger.resultFor m)
  ∧ (m.was_skipped = true → (JsonLogger.resultFor m).status = "Skipped")
  ∧ (m.was_skipped = false →
      ((JsonLogger.resultFor m).status = "OK" ↔ m.virtual_fail_count ≤ 0))
  ∧ (m.was_skipped = false → 0 < m.virtual_fail_count →
      (JsonLogger.resultFor m).status = MonitorResult.init.status
      ∧ (JsonLogger.resultFor m).status = "Fail") := by
  refine ⟨dictLookup_dictInsert _ _ _, ?_, ?_, ?_⟩
  · intro h
    simp [JsonLogger.resultFor, h]
  · intro h
    by_cases hv : m.virtual_fail_count ≤ 0 <;>
      simp [JsonLogger.resultFor, MonitorResult.init, h, hv]
  · intro h hv
    have hnle : ¬ m.virtual_fail_count ≤ 0 := by omega
    simp [JsonLogger.resultFor, MonitorResult.init, h, hnle]

/-- C9, witness: skipped-with-failures gives `"Skipped"`, passing gives
`"OK"`, failing gives `"Fail"`. -/
theorem json_status_precedence_witness :
    (JsonLogger.resultFor monitorSkipped).status = "Skipped"
  ∧ ((JsonLogger.resultFor monitorPassing).status = "OK"
      ↔ monitorPassing.virtual_fail_count ≤ 0)
  ∧ (JsonLogger.resultFor monitorFailing).status = "Fail" := by
  refine ⟨(json_status_precedence none ("m") monitorSkipped).2.1 rfl,
    (json_status_precedence none ("m") monitorPassing).2.2.1 rfl,
    ((json_status_precedence none ("m") monitorFailing).2.2.2 rfl (by decide)).2⟩

/-- C10: `MonitorPortAudit.run_test` overwrites an empty configured path
with the default tool location before probing — so after any `run_test`
call the path is never empty — and the configuration state of every other
Monitor variant (and portaudit's own non-empty path) is left unchanged by
`run_test`, for every probe behaviour. -/
theorem run_test_frame_effects :
    (∀ st p, (MonitorPortAudit.run_test st p).1 =
        (if st.path = "" then MonitorPortAuditState.mk ("/usr/local/sbin/portaudit") else st))
  ∧ (∀ st p, (MonitorPortAudit.run_test st p).1.path ≠ "")
  ∧ (∀ st p, (MonitorDiskSpace.run_test st p).1 = st)
  ∧ (∀ st p, (MonitorLoadAvg.run_test st p).1 = st)
  ∧ (∀ b st p, (MonitorMemory.run_test b st p).1 = st)
  ∧ (∀ b st p, (MonitorSwap.run_test b st p).1 = st) := by
  have hpa : ∀ st p, (MonitorPortAudit.run_test st p).1 =
      (if st.path = "" then MonitorPortAuditState.mk ("/usr/local/sbin/portaudit") else st) :=
    fun st p => rfl
  refine ⟨hpa, ?_, fun st p => rfl, fun st p => rfl, ?_, ?_⟩
  · intro st p
    rw [hpa st p]
    by_cases h : st.path = ""
    · rw [if_pos h]
      intro hc
      exact absurd hc (by decide)
    · rw [if_neg h]
      exact h
  · intro b st p
    cases b
    · rfl
    · cases p with
      | error e => rfl
      | ok stats =>
          simp only [MonitorMemory.run_test, reduceCtorEq, if_false]
          split
          · rfl
          · split <;> rfl
  · intro b st p
    cases b
    · rfl
    · cases p with
      | error e => rfl
      | ok stats =>
          simp only [MonitorSwap.run_test, reduceCtorEq, if_false]
          split <;> rfl
